import Mathlib

/-
Verification of the kytos/telemetry NApp orchestration layer (src/main.py).

The repository ships a single source file, `main.py`, holding the REST
handlers (`enable_telemetry`, `disable_telemetry`) and the per-circuit
provisioning/decommission routines (`provision_int`,
`provision_int_unidirectional`, `decommission_int`).  The collaborating
modules it imports (`managers/int.py`, `flow_builder`/`utils`,
`exceptions.py`, `kytos_api_helper.py`, `proxy_port.py`) are not part of
the repository snapshot; everything taken from them is modelled from the
specification and marked `Modelled from the spec:` in its doc comment.
-/

namespace Telemetry

/-- JSON values, as the parsed request body handed to the REST handlers. -/
inductive Json where
  | null : Json
  | bool : Bool → Json
  | num : Int → Json
  | str : String → Json
  | arr : List Json → Json
  | obj : List (String × Json) → Json

/-- Python truthiness, as applied by `bool(content.get("force", False))`. -/
def Json.toBool : Json → Bool
  | .null => false
  | .bool b => b
  | .num n => n != 0
  | .str s => s != ""
  | .arr xs => !xs.isEmpty
  | .obj kvs => !kvs.isEmpty

/-- Python dict lookup on a parsed JSON object (keys of a parsed body are unique). -/
def jlookup (kvs : List (String × Json)) (key : String) : Option Json :=
  match kvs with
  | [] => none
  | (k, v) :: rest => if k = key then some v else jlookup rest key

/-- Reads a JSON array element list as circuit-id strings. -/
def getStrings : List Json → Option (List String)
  | [] => some []
  | Json.str s :: rest => (getStrings rest).map (fun l => s :: l)
  | _ => none

/-- The `evc_ids` value as a list of circuit ids, when it is an array of strings. -/
def asStringList : Json → Option (List String)
  | .arr xs => getStrings xs
  | _ => none

/-- Modelled from the spec: a circuit endpoint (UNI) with its `interface_id`
and the switch hosting that interface (`utils.get_evc_unis` is absent from src). -/
structure Uni where
  interface_id : String
  switch : String
deriving DecidableEq, Repr

/-- Modelled from the spec: the circuit (EVC) representation the handlers pass
around as a dict — identity, two endpoints, the ordered switch path from the
A side to the Z side (endpoints included), and the INT-enabled metadata marker. -/
structure Evc where
  id : String
  uni_a : Uni
  uni_z : Uni
  path : List String
  telemetry_enabled : Bool
deriving DecidableEq, Repr

/-- A circuit representation in the mapping handed to the INT manager:
`none` stands for the empty-dict placeholder `evcs.get(evc_id, {})`. -/
abbrev EvcRepr := Option Evc

/-- Modelled from the spec: proxy-port health state. -/
inductive PortStatus where
  | up : PortStatus
  | down : PortStatus
deriving DecidableEq, Repr

/-- Modelled from the spec: the loopback proxy port of one endpoint interface
(`proxy_port.py` is absent from src). -/
structure ProxyPort where
  interface_id : String
  status : PortStatus
deriving DecidableEq, Repr

/-- The controller's proxy-port table: interface id to port status, `none`
meaning no proxy port is configured for that interface. -/
abbrev PPTable := List (String × PortStatus)

def ppLookup (ctl : PPTable) (intf : String) : Option PortStatus :=
  match ctl with
  | [] => none
  | (k, v) :: rest => if k = intf then some v else ppLookup rest intf

/-- Modelled from the spec: `utils.has_int_enabled` reads the INT-enabled
metadata marker of a circuit (utils is absent from src). -/
def has_int_enabled (evc : Evc) : Bool :=
  evc.telemetry_enabled

/-- Modelled from the spec: the three flow-rule behaviors. -/
inductive Role where
  | source : Role
  | hop : Role
  | sink : Role
deriving DecidableEq, Repr

/-- Modelled from the spec: a generated flow rule — target switch, role and
owning circuit id; the match/action payload is opaque to the orchestrator. -/
structure FlowRule where
  switch : String
  role : Role
  owner : String
deriving DecidableEq, Repr

/-- The classified exceptions imported by `main.py` from `exceptions.py`
(absent from src), plus tenacity's `RetryError` carrying the last cause. -/
inductive IntError where
  | evcNotFound : String → IntError
  | evcHasINT : String → IntError
  | evcHasNoINT : String → IntError
  | flowsNotFound : String → IntError
  | proxyPortNotFound : String → IntError
  | proxyPortStatusNotUP : String → IntError
  | retryError : String → IntError
  | unrecoverableError : String → IntError
deriving DecidableEq, Repr

/-- Modelled from the spec: `str(exc)` rendering of the classified exceptions
(`exceptions.py` is absent from src); the exact wording is abstracted. -/
def IntError.toMessage : IntError → String
  | .evcNotFound s => "EVC " ++ s ++ " not found"
  | .evcHasINT s => "EVC " ++ s ++ " already has INT"
  | .evcHasNoINT s => "EVC " ++ s ++ " has no INT"
  | .flowsNotFound s => "flows not found for EVC " ++ s
  | .proxyPortNotFound s => "proxy port not found for " ++ s
  | .proxyPortStatusNotUP s => "proxy port of " ++ s ++ " is not UP"
  | .retryError s => "retry budget exhausted: " ++ s
  | .unrecoverableError s => s

/-- Observable interactions of one provisioning/decommission pass, in order:
proxy-port resolution, completion of one direction's rule generation, one
install call per switch, one remove call per switch, metadata write-back. -/
inductive Event where
  | resolveProxyPort : String → Event
  | generateFlows : String → Event
  | install : String → List FlowRule → Event
  | remove : String → String → Event
  | setTelemetry : String → Bool → Event
deriving DecidableEq, Repr

def Event.isResolve : Event → Bool
  | .resolveProxyPort _ => true
  | _ => false

def Event.isGenerate : Event → Bool
  | .generateFlows _ => true
  | _ => false

def Event.isInstall : Event → Bool
  | .install _ _ => true
  | _ => false

def Event.isSetTelemetry : Event → Bool
  | .setTelemetry _ _ => true
  | _ => false

/-- Target switches of the install calls of a trace, in dispatch order. -/
def installSwitches (tr : List Event) : List String :=
  tr.filterMap (fun e =>
    match e with
    | .install sw _ => some sw
    | _ => none)

/-- Modelled from the spec: `utils.get_evc_unis` returns the two endpoints. -/
def get_evc_unis (evc : Evc) : Uni × Uni :=
  (evc.uni_a, evc.uni_z)

/-- Modelled from the spec: resolve an interface's proxy port or raise —
missing proxy port raises `ProxyPortNotFound`, a configured port that is not
UP raises `ProxyPortStatusNotUP` (utils is absent from src). -/
def get_proxy_port_or_raise (ctl : PPTable) (intf : String) :
    Except IntError ProxyPort :=
  match ppLookup ctl intf with
  | none => .error (.proxyPortNotFound intf)
  | some .up => .ok ⟨intf, .up⟩
  | some .down => .error (.proxyPortStatusNotUP intf)

/-- The switch path as traversed by one direction: A-to-Z order when the
direction's source endpoint is `uni_a`, reversed otherwise. -/
def dirPath (evc : Evc) (source_uni : Uni) : List String :=
  if source_uni = evc.uni_a then evc.path else evc.path.reverse

/-- Switches strictly between the direction's source and sink on the path. -/
def hopSwitches (evc : Evc) (source_uni : Uni) : List String :=
  ((dirPath evc source_uni).drop 1).dropLast

/-- Modelled from the spec: Flow Generator, SOURCE role — rules on the
direction's ingress switch (the flow builder is absent from src). -/
def enable_int_source (source_uni : Uni) (evc : Evc) (_proxy_port : ProxyPort) :
    List FlowRule :=
  [⟨source_uni.switch, .source, evc.id⟩]

/-- Modelled from the spec: Flow Generator, HOP role — one rule set per
interior switch of the direction's path; a two-switch path yields none. -/
def enable_int_hop (evc : Evc) (source_uni : Uni) (_destination_uni : Uni) :
    List FlowRule :=
  (hopSwitches evc source_uni).map (fun sw => ⟨sw, .hop, evc.id⟩)

/-- Modelled from the spec: Flow Generator, SINK role — rules on the
direction's egress switch. -/
def enable_int_sink (destination_uni : Uni) (evc : Evc) (_proxy_port : ProxyPort) :
    List FlowRule :=
  [⟨destination_uni.switch, .sink, evc.id⟩]

/-- The flattened rule sequence of one direction, in the order `main.py`
chains them: source rules, then hop rules, then sink rules (lines 88). -/
def generated_flows (evc : Evc) (source_uni destination_uni : Uni)
    (proxy_port : ProxyPort) : List FlowRule :=
  enable_int_source source_uni evc proxy_port ++
    enable_int_hop evc source_uni destination_uni ++
    enable_int_sink destination_uni evc proxy_port

/-- One step of the `defaultdict(list)` grouping loop of lines 88-89:
append the flow to its switch's bucket, creating the bucket on first use. -/
def addFlow (acc : List (String × List FlowRule)) (fl : FlowRule) :
    List (String × List FlowRule) :=
  if fl.switch ∈ acc.map Prod.fst then
    acc.map (fun p => if p.1 = fl.switch then (p.1, p.2 ++ [fl]) else p)
  else
    acc ++ [(fl.switch, [fl])]

/-- The `switches_flows` mapping of lines 77-89: buckets keyed by switch in
first-appearance order, each bucket in generation order. -/
def groupBySwitch (flows : List FlowRule) : List (String × List FlowRule) :=
  flows.foldl addFlow []

/-- Modelled from the spec: the Batch Dispatcher behind
`self.install_int_flows` (absent from src) — one install call per switch of
the grouped mapping. -/
def install_int_flows (switches_flows : List (String × List FlowRule)) :
    List Event :=
  switches_flows.map (fun p => Event.install p.1 p.2)

/-- `Main.provision_int_unidirectional` (src lines 73-91): generate source,
hop and sink rules for one direction, group them by switch, and dispatch the
grouped install calls; returns the trace and the grouped mapping. -/
def provision_int_unidirectional (evc : Evc) (source_uni destination_uni : Uni)
    (proxy_port : ProxyPort) : List Event × List (String × List FlowRule) :=
  let switches_flows :=
    groupBySwitch (generated_flows evc source_uni destination_uni proxy_port)
  (Event.generateFlows source_uni.interface_id :: install_int_flows switches_flows,
    switches_flows)

/-- `Main.provision_int` (src lines 93-109): resolve both endpoints' proxy
ports, then provision direction uni_z-to-uni_a and afterwards direction
uni_a-to-uni_z, each generated and dispatched in turn; the metadata
write-back (`set_telemetry_true_for_evc`) is commented out in the source, so
no `setTelemetry` event is emitted and `"enabled"` is returned. -/
def provision_int (ctl : PPTable) (evc : Evc) :
    List Event × Except IntError String :=
  let unis := get_evc_unis evc
  let uni_a := unis.1
  let uni_z := unis.2
  let ev_a := [Event.resolveProxyPort uni_a.interface_id]
  match get_proxy_port_or_raise ctl uni_a.interface_id with
  | .error e => (ev_a, .error e)
  | .ok uni_a_proxy_port =>
    let ev_z := ev_a ++ [Event.resolveProxyPort uni_z.interface_id]
    match get_proxy_port_or_raise ctl uni_z.interface_id with
    | .error e => (ev_z, .error e)
    | .ok uni_z_proxy_port =>
      let d1 := provision_int_unidirectional evc uni_z uni_a uni_a_proxy_port
      let d2 := provision_int_unidirectional evc uni_a uni_z uni_z_proxy_port
      (ev_z ++ d1.1 ++ d2.1, .ok "enabled")

/-- Modelled from the spec: `self.remove_int_flows` (absent from src) —
locate and remove the circuit-tagged flows of every switch on its path, one
removal call per switch. -/
def remove_int_flows (evc : Evc) : List Event :=
  evc.path.map (fun sw => Event.remove sw evc.id)

/-- `Main.decommission_int` (src lines 111-121): remove the circuit's INT
flows and return the success message; the metadata write-back
(`set_telemetry_false_for_evc`) is commented out in the source, so no
`setTelemetry` event is emitted. -/
def decommission_int (evc : Evc) : List Event × String :=
  (remove_int_flows evc, "EVC ID " ++ evc.id ++ " is no longer INT-enabled.")

/-- Modelled from the spec: the per-circuit enable contract driven by
`INTManager.enable_int` (`managers/int.py` is absent from src) — an empty
representation fails with `EVCNotFound`; an already INT-enabled circuit
without force fails with `EVCHasINT`; otherwise provisioning proceeds as in
src `provision_int`. -/
def enable_int_evc (ctl : PPTable) (force : Bool) (evc_id : String)
    (r : EvcRepr) : List Event × Except IntError String :=
  match r with
  | none => ([], .error (.evcNotFound evc_id))
  | some evc =>
    if evc.telemetry_enabled && !force then ([], .error (.evcHasINT evc_id))
    else provision_int ctl evc

/-- Modelled from the spec: the per-circuit disable contract driven by
`INTManager.disable_int` (`managers/int.py` is absent from src) — an empty
representation fails with `EVCNotFound`; a circuit without INT and without
force fails with `EVCHasNoINT`; absent circuit-tagged stored flows without
force fail with `FlowsNotFound`; otherwise removal proceeds as in src
`decommission_int`. -/
def disable_int_evc (stored : List FlowRule) (force : Bool) (evc_id : String)
    (r : EvcRepr) : List Event × Except IntError String :=
  match r with
  | none => ([], .error (.evcNotFound evc_id))
  | some evc =>
    if !evc.telemetry_enabled && !force then ([], .error (.evcHasNoINT evc_id))
    else if (stored.filter (fun f => f.owner = evc_id)).isEmpty && !force then
      ([], .error (.flowsNotFound evc_id))
    else
      let d := decommission_int evc
      (d.1, .ok d.2)

/-- What a call to the injected INT manager does from the handler's point of
view: return normally or raise one classified exception. -/
inductive ManagerOutcome where
  | ok : ManagerOutcome
  | raises : IntError → ManagerOutcome
deriving DecidableEq, Repr

def exceptError : Except IntError String → Option IntError
  | .error e => some e
  | .ok _ => none

/-- Modelled from the spec: the bulk `INTManager.enable_int` driving the
per-circuit work over the handed mapping, surfacing the first classified
per-circuit failure as a raised exception, which the handler's except
clauses translate. -/
def enable_int (ctl : PPTable) (evcs : List (String × EvcRepr)) (force : Bool) :
    ManagerOutcome :=
  match (evcs.filterMap
      (fun p => exceptError (enable_int_evc ctl force p.1 p.2).2)).head? with
  | some e => .raises e
  | none => .ok

/-- Modelled from the spec: the bulk `INTManager.disable_int`, symmetric to
the bulk enable. -/
def disable_int (stored : List FlowRule) (evcs : List (String × EvcRepr))
    (force : Bool) : ManagerOutcome :=
  match (evcs.filterMap
      (fun p => exceptError (disable_int_evc stored force p.1 p.2).2)).head? with
  | some e => .raises e
  | none => .ok

/-- Result of one upstream inventory fetch (`get_evcs`/`get_evc`,
`kytos_api_helper.py` absent from src): the circuit dict, or a tenacity
`RetryError` whose last attempt's cause is the carried string. -/
inductive FetchResult where
  | ok : List (String × Evc) → FetchResult
  | retryErr : String → FetchResult

/-- The external circuit inventory as the handlers see it. -/
structure Inventory where
  all_evcs : FetchResult
  one_evc : String → FetchResult

/-- Which inventory call line 138/183 issues. -/
inductive FetchCall where
  | all : FetchCall
  | one : String → FetchCall
deriving DecidableEq, Repr

def runFetch (inv : Inventory) : FetchCall → FetchResult
  | .all => inv.all_evcs
  | .one i => inv.one_evc i

/-- Line 138/183: `get_evcs() if len(evc_ids) != 1 else get_evc(evc_ids[0])`. -/
def fetch_call_of (evc_ids : List String) : FetchCall :=
  match evc_ids with
  | [i] => .one i
  | _ => .all

/-- `evcs.get(evc_id, {})` of lines 145/190: the found circuit, or the
empty-dict placeholder. -/
def lookupEvc (evcs : List (String × Evc)) (evc_id : String) : EvcRepr :=
  match evcs with
  | [] => none
  | (k, v) :: rest => if k = evc_id then some v else lookupEvc rest evc_id

/-- Keys of the dict comprehension `{evc_id: ... for evc_id in evc_ids}`:
first-occurrence order, duplicates collapsed. -/
def insertOrderedKeys (ids : List String) : List String :=
  ids.foldl (fun acc i => if i ∈ acc then acc else acc ++ [i]) []

/-- Caller-visible outcome of one handler call: a JSON response, an
`HTTPException` raised with status and detail, an exception escaping the
handler uncaught, or an uncaught Python `TypeError` (a non-list `evc_ids`
value hits `len(evc_ids)` outside any except clause). -/
inductive HttpResult where
  | response : Nat → Json → HttpResult
  | httpError : Nat → String → HttpResult
  | uncaughtExc : IntError → HttpResult
  | pyTypeError : HttpResult

/-- One handler run: its outcome, which inventory fetch it issued (if any),
and the mapping/force it handed to the INT manager (if it invoked it). -/
structure HandlerRun where
  result : HttpResult
  fetched : Option FetchCall
  managerArg : Option (List (String × EvcRepr) × Bool)

/-- Lines 130-135/175-180, shared by both handlers: a body that is not a
JSON object, or lacks the `"evc_ids"` key, raises `HTTPException(400)`
(`TypeError`/`KeyError` caught); `force` defaults to `False` and a present
value is coerced with `bool(...)`.  The Python detail interpolates the
payload's repr; the rendering is abstracted to a fixed string. -/
def parse_payload (content : Json) : Option (Json × Bool) :=
  match content with
  | .obj kvs =>
    match jlookup kvs "evc_ids" with
    | none => none
    | some idsJson =>
      some (idsJson, ((jlookup kvs "force").getD (Json.bool false)).toBool)
  | _ => none

/-- The except clauses of `enable_telemetry` (src lines 154-165): the three
not-found exceptions map to 404, the two conflicts to 400, `RetryError` to
503 carrying the last attempt's cause, `UnrecoverableError` to 500; any
other exception escapes the handler. -/
def mapEnableExc : IntError → HttpResult
  | .evcNotFound s => .httpError 404 (IntError.evcNotFound s).toMessage
  | .flowsNotFound s => .httpError 404 (IntError.flowsNotFound s).toMessage
  | .proxyPortNotFound s => .httpError 404 (IntError.proxyPortNotFound s).toMessage
  | .evcHasINT s => .httpError 400 (IntError.evcHasINT s).toMessage
  | .proxyPortStatusNotUP s =>
      .httpError 400 (IntError.proxyPortStatusNotUP s).toMessage
  | .retryError c => .httpError 503 c
  | .unrecoverableError m => .httpError 500 (IntError.unrecoverableError m).toMessage
  | e => .uncaughtExc e

/-- The except clauses of `disable_telemetry` (src lines 199-210): only
`EVCNotFound` (404), `EVCHasNoINT` (400), `RetryError` (503) and
`UnrecoverableError` (500) are caught; every other exception — in
particular `FlowsNotFound`, `ProxyPortNotFound`, `ProxyPortStatusNotUP` and
`EVCHasINT` — escapes the handler uncaught. -/
def mapDisableExc : IntError → HttpResult
  | .evcNotFound s => .httpError 404 (IntError.evcNotFound s).toMessage
  | .evcHasNoINT s => .httpError 400 (IntError.evcHasNoINT s).toMessage
  | .retryError c => .httpError 503 c
  | .unrecoverableError m => .httpError 500 (IntError.unrecoverableError m).toMessage
  | e => .uncaughtExc e

/-- The try/except around the INT-manager call plus the final return of each
handler: invoke the manager on the built mapping; on normal return answer
`JSONResponse({})` with the handler's success status, on a raised exception
answer what the handler's except clauses make of it. -/
def run_manager (mapExc : IntError → HttpResult) (okStatus : Nat)
    (mgr : List (String × EvcRepr) → Bool → ManagerOutcome)
    (evcs : List (String × EvcRepr)) (force : Bool) (fc : FetchCall) :
    HandlerRun :=
  ⟨match mgr evcs force with
    | .ok => .response okStatus (Json.obj [])
    | .raises e => mapExc e,
    some fc, some (evcs, force)⟩

/-- `Main.enable_telemetry` (src lines 123-167): parse the payload, fetch
the inventory (one circuit only when exactly one id is named), build the
mapping — requested ids with placeholders, or all circuits currently
without INT when no id is named (returning `{}` at once when that filter is
empty) — and drive the INT manager, translating its exceptions. -/
def enable_telemetry (inv : Inventory)
    (mgr : List (String × EvcRepr) → Bool → ManagerOutcome)
    (content : Json) : HandlerRun :=
  match parse_payload content with
  | none => ⟨.httpError 400 "Invalid payload", none, none⟩
  | some (idsJson, force) =>
    match asStringList idsJson with
    | none => ⟨.pyTypeError, none, none⟩
    | some evc_ids =>
      let fc := fetch_call_of evc_ids
      match runFetch inv fc with
      | .retryErr cause => ⟨.httpError 503 cause, some fc, none⟩
      | .ok evcs =>
        if evc_ids.isEmpty then
          let filtered := (evcs.filter (fun p => !has_int_enabled p.2)).map
            (fun p => (p.1, (some p.2 : EvcRepr)))
          if filtered.isEmpty then ⟨.response 200 (Json.obj []), some fc, none⟩
          else run_manager mapEnableExc 201 mgr filtered force fc
        else
          let requested := (insertOrderedKeys evc_ids).map
            (fun i => (i, lookupEvc evcs i))
          run_manager mapEnableExc 201 mgr requested force fc

/-- `Main.disable_telemetry` (src lines 169-212): symmetric to the enable
handler — no named id means all circuits currently with INT; the success
response is `JSONResponse({})` with status 200. -/
def disable_telemetry (inv : Inventory)
    (mgr : List (String × EvcRepr) → Bool → ManagerOutcome)
    (content : Json) : HandlerRun :=
  match parse_payload content with
  | none => ⟨.httpError 400 "Invalid payload", none, none⟩
  | some (idsJson, force) =>
    match asStringList idsJson with
    | none => ⟨.pyTypeError, none, none⟩
    | some evc_ids =>
      let fc := fetch_call_of evc_ids
      match runFetch inv fc with
      | .retryErr cause => ⟨.httpError 503 cause, some fc, none⟩
      | .ok evcs =>
        if evc_ids.isEmpty then
          let filtered := (evcs.filter (fun p => has_int_enabled p.2)).map
            (fun p => (p.1, (some p.2 : EvcRepr)))
          if filtered.isEmpty then ⟨.response 200 (Json.obj []), some fc, none⟩
          else run_manager mapDisableExc 200 mgr filtered force fc
        else
          let requested := (insertOrderedKeys evc_ids).map
            (fun i => (i, lookupEvc evcs i))
          run_manager mapDisableExc 200 mgr requested force fc

/-- Boolean form of the claimed dispatch ordering: in a trace, no
rule-generation event occurs after an install call has been dispatched
(equivalently, every direction's rule set is computed before any dispatch). -/
def gensBeforeInstalls : List Event → Bool
  | [] => true
  | e :: rest =>
    match e with
    | .install _ _ => rest.all (fun x => !x.isGenerate) && gensBeforeInstalls rest
    | _ => gensBeforeInstalls rest

/-- Boolean form of the claimed response shape: the handler outcome is a
JSON-object response whose keys cover every named circuit id. -/
def bodyCoversIds (r : HttpResult) (ids : List String) : Bool :=
  match r with
  | .response _ (Json.obj kvs) => ids.all (fun i => kvs.any (fun kv => kv.1 = i))
  | _ => false

/-- Whether a handler outcome is an HTTP 404 client not-found error. -/
def isHttp404 : HttpResult → Bool
  | .httpError 404 _ => true
  | _ => false

/-! Concrete example data for witnesses and counterexamples: one circuit
`e1` on path S1-S2-S3 with both proxy ports configured. -/

def uniA : Uni := ⟨"intfA", "S1"⟩

def uniZ : Uni := ⟨"intfZ", "S3"⟩

def evcEx : Evc := ⟨"e1", uniA, uniZ, ["S1", "S2", "S3"], false⟩

def evcEx2 : Evc := ⟨"e2", uniA, uniZ, ["S1", "S2", "S3"], false⟩

def evcIntEx : Evc := ⟨"e1", uniA, uniZ, ["S1", "S2", "S3"], true⟩

def ctlEx : PPTable := [("intfA", .up), ("intfZ", .up)]

def ctlMissingA : PPTable := [("intfZ", .up)]

def ctlDownA : PPTable := [("intfA", .down), ("intfZ", .up)]

def ctlDownZ : PPTable := [("intfA", .up), ("intfZ", .down)]

def invEx : Inventory :=
  ⟨.ok [("e1", evcEx), ("e2", evcEx2)],
    fun i => if i = "e1" then .ok [("e1", evcEx)] else .ok []⟩

def invIntEx : Inventory :=
  ⟨.ok [("e1", evcIntEx)],
    fun i => if i = "e1" then .ok [("e1", evcIntEx)] else .ok []⟩

def contentTwo : Json := .obj [("evc_ids", .arr [.str "e1", .str "e2"])]

def contentMissing : Json := .obj [("evc_ids", .arr [.str "e1", .str "missing"])]

def contentOne : Json := .obj [("evc_ids", .arr [.str "e1"])]

def contentEmptyIds : Json := .obj [("evc_ids", .arr [])]

def mgrOk : List (String × EvcRepr) → Bool → ManagerOutcome := fun _ _ => .ok

def ppAEx : ProxyPort := ⟨"intfA", .up⟩

def contentXY : Json := .obj [("evc_ids", .arr [.str "x", .str "y"])]

/-! Grouping lemmas: the `defaultdict(list)` loop of lines 88-89 produces
pairwise-distinct switch keys, switch-homogeneous buckets, and a bucket
containing every generated flow. -/

theorem addFlow_map_fst (acc : List (String × List FlowRule)) (fl : FlowRule) :
    (addFlow acc fl).map Prod.fst =
      if fl.switch ∈ acc.map Prod.fst then acc.map Prod.fst
      else acc.map Prod.fst ++ [fl.switch] := by
  by_cases h : fl.switch ∈ acc.map Prod.fst
  · simp only [addFlow, if_pos h, List.map_map]
    congr 1
    funext p
    by_cases hp : p.1 = fl.switch <;> simp [hp]
  · simp [addFlow, h]

theorem addFlow_nodup {acc : List (String × List FlowRule)} (fl : FlowRule)
    (h : (acc.map Prod.fst).Nodup) : ((addFlow acc fl).map Prod.fst).Nodup := by
  rw [addFlow_map_fst]
  by_cases hm : fl.switch ∈ acc.map Prod.fst
  · simpa [hm] using h
  · simp [hm, List.nodup_append, h]

theorem foldl_addFlow_nodup (flows : List FlowRule) :
    ∀ acc, (acc.map Prod.fst).Nodup →
      ((flows.foldl addFlow acc).map Prod.fst).Nodup := by
  induction flows with
  | nil => intro acc h; exact h
  | cons f fs ih => intro acc h; exact ih _ (addFlow_nodup f h)

theorem groupBySwitch_nodup (flows : List FlowRule) :
    ((groupBySwitch flows).map Prod.fst).Nodup :=
  foldl_addFlow_nodup flows [] (by simp)

theorem addFlow_homog {acc : List (String × List FlowRule)} (fl : FlowRule)
    (h : ∀ p ∈ acc, ∀ f ∈ p.2, f.switch = p.1) :
    ∀ p ∈ addFlow acc fl, ∀ f ∈ p.2, f.switch = p.1 := by
  intro p hp f hf
  unfold addFlow at hp
  by_cases hm : fl.switch ∈ acc.map Prod.fst
  · rw [if_pos hm] at hp
    obtain ⟨q, hq, rfl⟩ := List.mem_map.mp hp
    by_cases hqs : q.1 = fl.switch
    · rw [if_pos hqs] at hf ⊢
      rcases List.mem_append.mp hf with hf | hf
      · exact h q hq f hf
      · rw [List.mem_singleton.mp hf, hqs]
    · rw [if_neg hqs] at hf ⊢
      exact h q hq f hf
  · rw [if_neg hm] at hp
    rcases List.mem_append.mp hp with hp | hp
    · exact h p hp f hf
    · rw [List.mem_singleton.mp hp] at hf ⊢
      rw [List.mem_singleton.mp hf]

theorem foldl_addFlow_homog (flows : List FlowRule) :
    ∀ acc, (∀ p ∈ acc, ∀ f ∈ p.2, f.switch = p.1) →
      ∀ p ∈ flows.foldl addFlow acc, ∀ f ∈ p.2, f.switch = p.1 := by
  induction flows with
  | nil => intro acc h; exact h
  | cons g gs ih => intro acc h; exact ih _ (addFlow_homog g h)

theorem groupBySwitch_homog (flows : List FlowRule) :
    ∀ p ∈ groupBySwitch flows, ∀ f ∈ p.2, f.switch = p.1 :=
  foldl_addFlow_homog flows [] (by simp)

theorem addFlow_inGroups_preserved {acc : List (String × List FlowRule)}
    {f : FlowRule} (fl : FlowRule)
    (h : ∃ v, (f.switch, v) ∈ acc ∧ f ∈ v) :
    ∃ v, (f.switch, v) ∈ addFlow acc fl ∧ f ∈ v := by
  obtain ⟨v, hv, hfv⟩ := h
  unfold addFlow
  by_cases hm : fl.switch ∈ acc.map Prod.fst
  · rw [if_pos hm]
    by_cases hs : f.switch = fl.switch
    · refine ⟨v ++ [fl], ?_, by simp [hfv]⟩
      refine List.mem_map.mpr ⟨(f.switch, v), hv, ?_⟩
      simp [hs]
    · refine ⟨v, ?_, hfv⟩
      refine List.mem_map.mpr ⟨(f.switch, v), hv, ?_⟩
      simp [hs]
  · rw [if_neg hm]
    exact ⟨v, List.mem_append_left _ hv, hfv⟩

theorem addFlow_inGroups_self (acc : List (String × List FlowRule))
    (fl : FlowRule) : ∃ v, (fl.switch, v) ∈ addFlow acc fl ∧ fl ∈ v := by
  unfold addFlow
  by_cases hm : fl.switch ∈ acc.map Prod.fst
  · rw [if_pos hm]
    obtain ⟨p, hp, hps⟩ := List.mem_map.mp hm
    refine ⟨p.2 ++ [fl], ?_, by simp⟩
    refine List.mem_map.mpr ⟨p, hp, ?_⟩
    simp [hps]
  · rw [if_neg hm]
    exact ⟨[fl], by simp, by simp⟩

theorem foldl_addFlow_complete (flows : List FlowRule) :
    ∀ acc f, (f ∈ flows ∨ ∃ v, (f.switch, v) ∈ acc ∧ f ∈ v) →
      ∃ v, (f.switch, v) ∈ flows.foldl addFlow acc ∧ f ∈ v := by
  induction flows with
  | nil =>
    intro acc f h
    rcases h with h | h
    · simp at h
    · exact h
  | cons g gs ih =>
    intro acc f h
    rcases h with h | h
    · rcases List.mem_cons.mp h with rfl | h
      · exact ih _ f (.inr (addFlow_inGroups_self acc f))
      · exact ih _ f (.inl h)
    · exact ih _ f (.inr (addFlow_inGroups_preserved g h))

theorem groupBySwitch_complete {flows : List FlowRule} {f : FlowRule}
    (h : f ∈ flows) : ∃ v, (f.switch, v) ∈ groupBySwitch flows ∧ f ∈ v :=
  foldl_addFlow_complete flows [] f (.inl h)

theorem installSwitches_install_int_flows
    (sf : List (String × List FlowRule)) :
    installSwitches (install_int_flows sf) = sf.map Prod.fst := by
  induction sf with
  | nil => rfl
  | cons p ps ih =>
    simpa [install_int_flows, installSwitches, List.filterMap_cons] using ih

theorem foldl_insert_mem (ids : List String) :
    ∀ acc i,
      (i ∈ ids.foldl (fun acc j => if j ∈ acc then acc else acc ++ [j]) acc ↔
        i ∈ acc ∨ i ∈ ids) := by
  induction ids with
  | nil => intro acc i; simp
  | cons a as ih =>
    intro acc i
    rw [List.foldl_cons]
    by_cases h : a ∈ acc
    · rw [if_pos h, ih]
      simp only [List.mem_cons]
      constructor
      · tauto
      · rintro (h1 | h1 | h1) <;> first
          | exact .inl h1
          | (subst h1; exact .inl h)
          | exact .inr h1
    · rw [if_neg h, ih]
      simp only [List.mem_append, List.mem_singleton, List.mem_cons]
      tauto

theorem insertOrderedKeys_mem (ids : List String) (i : String) :
    i ∈ insertOrderedKeys ids ↔ i ∈ ids := by
  unfold insertOrderedKeys
  rw [foldl_insert_mem]
  simp

/-! Case lemmas for `provision_int` (src lines 93-109). -/

theorem provision_int_missing_a (ctl : PPTable) (evc : Evc)
    (h : ppLookup ctl evc.uni_a.interface_id = none) :
    provision_int ctl evc =
      ([Event.resolveProxyPort evc.uni_a.interface_id],
        .error (.proxyPortNotFound evc.uni_a.interface_id)) := by
  simp only [provision_int, get_evc_unis, get_proxy_port_or_raise, h]

theorem provision_int_down_a (ctl : PPTable) (evc : Evc)
    (h : ppLookup ctl evc.uni_a.interface_id = some .down) :
    provision_int ctl evc =
      ([Event.resolveProxyPort evc.uni_a.interface_id],
        .error (.proxyPortStatusNotUP evc.uni_a.interface_id)) := by
  simp only [provision_int, get_evc_unis, get_proxy_port_or_raise, h]

theorem provision_int_missing_z (ctl : PPTable) (evc : Evc)
    (ha : ppLookup ctl evc.uni_a.interface_id = some .up)
    (hz : ppLookup ctl evc.uni_z.interface_id = none) :
    provision_int ctl evc =
      ([Event.resolveProxyPort evc.uni_a.interface_id,
        Event.resolveProxyPort evc.uni_z.interface_id],
        .error (.proxyPortNotFound evc.uni_z.interface_id)) := by
  simp only [provision_int, get_evc_unis, get_proxy_port_or_raise, ha, hz]
  rfl

theorem provision_int_down_z (ctl : PPTable) (evc : Evc)
    (ha : ppLookup ctl evc.uni_a.interface_id = some .up)
    (hz : ppLookup ctl evc.uni_z.interface_id = some .down) :
    provision_int ctl evc =
      ([Event.resolveProxyPort evc.uni_a.interface_id,
        Event.resolveProxyPort evc.uni_z.interface_id],
        .error (.proxyPortStatusNotUP evc.uni_z.interface_id)) := by
  simp only [provision_int, get_evc_unis, get_proxy_port_or_raise, ha, hz]
  rfl

theorem provision_int_ok (ctl : PPTable) (evc : Evc)
    (ha : ppLookup ctl evc.uni_a.interface_id = some .up)
    (hz : ppLookup ctl evc.uni_z.interface_id = some .up) :
    provision_int ctl evc =
      ([Event.resolveProxyPort evc.uni_a.interface_id,
        Event.resolveProxyPort evc.uni_z.interface_id] ++
        (provision_int_unidirectional evc evc.uni_z evc.uni_a
          ⟨evc.uni_a.interface_id, .up⟩).1 ++
        (provision_int_unidirectional evc evc.uni_a evc.uni_z
          ⟨evc.uni_z.interface_id, .up⟩).1,
        .ok "enabled") := by
  simp only [provision_int, get_evc_unis, get_proxy_port_or_raise, ha, hz]
  rfl

theorem provision_int_unidirectional_trace (evc : Evc) (s d : Uni)
    (pp : ProxyPort) :
    (provision_int_unidirectional evc s d pp).1 =
      Event.generateFlows s.interface_id ::
        install_int_flows (groupBySwitch (generated_flows evc s d pp)) := rfl

/-! Reduction lemmas for the two REST handlers past a successful payload
parse, used to settle the handler-level claims. -/

theorem enable_telemetry_fetch (inv : Inventory)
    (mgr : List (String × EvcRepr) → Bool → ManagerOutcome) (content : Json)
    (idsJson : Json) (force : Bool) (ids : List String)
    (hparse : parse_payload content = some (idsJson, force))
    (hids : asStringList idsJson = some ids) :
    enable_telemetry inv mgr content =
      match runFetch inv (fetch_call_of ids) with
      | .retryErr cause => ⟨.httpError 503 cause, some (fetch_call_of ids), none⟩
      | .ok evcs =>
        if ids.isEmpty then
          let filtered := (evcs.filter (fun p => !has_int_enabled p.2)).map
            (fun p => (p.1, (some p.2 : EvcRepr)))
          if filtered.isEmpty then
            ⟨.response 200 (Json.obj []), some (fetch_call_of ids), none⟩
          else run_manager mapEnableExc 201 mgr filtered force (fetch_call_of ids)
        else
          run_manager mapEnableExc 201 mgr
            ((insertOrderedKeys ids).map (fun i => (i, lookupEvc evcs i))) force
            (fetch_call_of ids) := by
  unfold enable_telemetry
  rw [hparse]
  dsimp only
  rw [hids]

theorem disable_telemetry_fetch (inv : Inventory)
    (mgr : List (String × EvcRepr) → Bool → ManagerOutcome) (content : Json)
    (idsJson : Json) (force : Bool) (ids : List String)
    (hparse : parse_payload content = some (idsJson, force))
    (hids : asStringList idsJson = some ids) :
    disable_telemetry inv mgr content =
      match runFetch inv (fetch_call_of ids) with
      | .retryErr cause => ⟨.httpError 503 cause, some (fetch_call_of ids), none⟩
      | .ok evcs =>
        if ids.isEmpty then
          let filtered := (evcs.filter (fun p => has_int_enabled p.2)).map
            (fun p => (p.1, (some p.2 : EvcRepr)))
          if filtered.isEmpty then
            ⟨.response 200 (Json.obj []), some (fetch_call_of ids), none⟩
          else run_manager mapDisableExc 200 mgr filtered force (fetch_call_of ids)
        else
          run_manager mapDisableExc 200 mgr
            ((insertOrderedKeys ids).map (fun i => (i, lookupEvc evcs i))) force
            (fetch_call_of ids) := by
  unfold disable_telemetry
  rw [hparse]
  dsimp only
  rw [hids]

theorem mapEnableExc_ne_response (e : IntError) (st : Nat) (b : Json) :
    mapEnableExc e ≠ .response st b := by
  cases e <;> exact fun h => HttpResult.noConfusion h

theorem mapDisableExc_ne_response (e : IntError) (st : Nat) (b : Json) :
    mapDisableExc e ≠ .response st b := by
  cases e <;> exact fun h => HttpResult.noConfusion h

theorem run_manager_body (mapExc : IntError → HttpResult) (okStatus : Nat)
    (mgr : List (String × EvcRepr) → Bool → ManagerOutcome)
    (evs : List (String × EvcRepr)) (f : Bool) (fc : FetchCall)
    (st : Nat) (b : Json)
    (hne : ∀ e st2 b2, mapExc e ≠ HttpResult.response st2 b2)
    (h : (run_manager mapExc okStatus mgr evs f fc).result = .response st b) :
    b = Json.obj [] := by
  unfold run_manager at h
  dsimp only at h
  split at h
  · exact (HttpResult.response.inj h).2.symm
  · exact absurd h (hne _ _ _)

/-- Either the enable handler never reaches the INT manager, or its whole
run is one `run_manager` step on the mapping it built. -/
theorem enable_telemetry_invoked (inv : Inventory)
    (mgr : List (String × EvcRepr) → Bool → ManagerOutcome) (content : Json) :
    (enable_telemetry inv mgr content).managerArg = none ∨
    ∃ evs f fc, enable_telemetry inv mgr content =
      run_manager mapEnableExc 201 mgr evs f fc := by
  unfold enable_telemetry
  dsimp only
  repeat' split
  all_goals first
    | (left; rfl)
    | (right; exact ⟨_, _, _, rfl⟩)

/-- Either the disable handler never reaches the INT manager, or its whole
run is one `run_manager` step on the mapping it built. -/
theorem disable_telemetry_invoked (inv : Inventory)
    (mgr : List (String × EvcRepr) → Bool → ManagerOutcome) (content : Json) :
    (disable_telemetry inv mgr content).managerArg = none ∨
    ∃ evs f fc, disable_telemetry inv mgr content =
      run_manager mapDisableExc 200 mgr evs f fc := by
  unfold disable_telemetry
  dsimp only
  repeat' split
  all_goals first
    | (left; rfl)
    | (right; exact ⟨_, _, _, rfl⟩)

theorem enable_telemetry_result_body (inv : Inventory)
    (mgr : List (String × EvcRepr) → Bool → ManagerOutcome) (content : Json)
    (st : Nat) (b : Json)
    (h : (enable_telemetry inv mgr content).result = .response st b) :
    b = Json.obj [] := by
  unfold enable_telemetry at h
  dsimp only at h
  repeat' split at h
  all_goals first
    | (exact run_manager_body _ _ _ _ _ _ _ _ mapEnableExc_ne_response h)
    | (simp at h; done)
    | (simp at h; exact h.2.symm)

theorem disable_telemetry_result_body (inv : Inventory)
    (mgr : List (String × EvcRepr) → Bool → ManagerOutcome) (content : Json)
    (st : Nat) (b : Json)
    (h : (disable_telemetry inv mgr content).result = .response st b) :
    b = Json.obj [] := by
  unfold disable_telemetry at h
  dsimp only at h
  repeat' split at h
  all_goals first
    | (exact run_manager_body _ _ _ _ _ _ _ _ mapDisableExc_ne_response h)
    | (simp at h; done)
    | (simp at h; exact h.2.symm)

theorem install_int_flows_no_setTelemetry
    (sf : List (String × List FlowRule)) :
    (install_int_flows sf).any Event.isSetTelemetry = false := by
  induction sf with
  | nil => rfl
  | cons p ps ih => simpa [install_int_flows, Event.isSetTelemetry] using ih

theorem installSwitches_cons_generate (x : String) (tr : List Event) :
    installSwitches (Event.generateFlows x :: tr) = installSwitches tr := rfl

/-- C2: the claim that both directions' rule sets are computed before any
install dispatch is false for `provision_int`: on the example circuit the
trace dispatches direction 1's install calls before direction 2's rules are
generated, so a generation event follows an install event. -/
theorem c2_counterexample :
    gensBeforeInstalls (provision_int ctlEx evcEx).1 = false := by decide

/-- C2 (amended): each direction's rule set is fully generated and grouped
before that direction's own dispatch, but `provision_int` dispatches the
first direction (ingress `uni_z`) before generating the second direction
(ingress `uni_a`): the successful trace is the two proxy-port resolutions,
then direction-1 generation and installs, then direction-2 generation and
installs. -/
theorem c2_direction_sequencing (ctl : PPTable) (evc : Evc)
    (ha : ppLookup ctl evc.uni_a.interface_id = some .up)
    (hz : ppLookup ctl evc.uni_z.interface_id = some .up) :
    (provision_int ctl evc).1 =
      [Event.resolveProxyPort evc.uni_a.interface_id,
        Event.resolveProxyPort evc.uni_z.interface_id,
        Event.generateFlows evc.uni_z.interface_id] ++
      install_int_flows (groupBySwitch (generated_flows evc evc.uni_z evc.uni_a
        ⟨evc.uni_a.interface_id, .up⟩)) ++
      Event.generateFlows evc.uni_a.interface_id ::
        install_int_flows (groupBySwitch (generated_flows evc evc.uni_a evc.uni_z
          ⟨evc.uni_z.interface_id, .up⟩)) := by
  rw [provision_int_ok ctl evc ha hz, provision_int_unidirectional_trace,
    provision_int_unidirectional_trace]
  simp

theorem c2_direction_sequencing_witness :
    (provision_int ctlEx evcEx).1 =
      [Event.resolveProxyPort evcEx.uni_a.interface_id,
        Event.resolveProxyPort evcEx.uni_z.interface_id,
        Event.generateFlows evcEx.uni_z.interface_id] ++
      install_int_flows (groupBySwitch (generated_flows evcEx evcEx.uni_z evcEx.uni_a
        ⟨evcEx.uni_a.interface_id, .up⟩)) ++
      Event.generateFlows evcEx.uni_a.interface_id ::
        install_int_flows (groupBySwitch (generated_flows evcEx evcEx.uni_a evcEx.uni_z
          ⟨evcEx.uni_z.interface_id, .up⟩)) :=
  c2_direction_sequencing ctlEx evcEx rfl rfl

/-- C3: the claim that within one provisioning pass all FlowRule for a given
switch (across both directions) are dispatched in one single call is false:
one `provision_int` pass over the example circuit issues two install calls
per switch, one per direction, so the dispatched switch list repeats. -/
theorem c3_counterexample :
    ¬ (installSwitches (provision_int ctlEx evcEx).1).Nodup := by decide

/-- C3 (amended): within one unidirectional provisioning call the install
calls target pairwise-distinct switches, every install call carries only
rules of its own switch, and every generated rule is dispatched in the call
of its switch; the single-call-per-switch property holds per direction, not
across the two directions of a `provision_int` pass. -/
theorem c3_per_direction_batching (evc : Evc) (s d : Uni) (pp : ProxyPort) :
    (installSwitches (provision_int_unidirectional evc s d pp).1).Nodup ∧
    (∀ sw fls,
      Event.install sw fls ∈ (provision_int_unidirectional evc s d pp).1 →
      ∀ f ∈ fls, f.switch = sw) ∧
    (∀ f ∈ generated_flows evc s d pp, ∃ fls,
      Event.install f.switch fls ∈ (provision_int_unidirectional evc s d pp).1 ∧
      f ∈ fls) := by
  refine ⟨?_, ?_, ?_⟩
  · rw [provision_int_unidirectional_trace, installSwitches_cons_generate,
      installSwitches_install_int_flows]
    exact groupBySwitch_nodup _
  · intro sw fls hmem f hf
    rw [provision_int_unidirectional_trace] at hmem
    rcases List.mem_cons.mp hmem with h | h
    · exact absurd h (fun hh => Event.noConfusion hh)
    · obtain ⟨p, hp, hpe⟩ := List.mem_map.mp h
      obtain ⟨h1, h2⟩ := Event.install.inj hpe
      have hsrc := groupBySwitch_homog (generated_flows evc s d pp) p hp f
        (by rw [h2]; exact hf)
      rw [← h1]
      exact hsrc
  · intro f hf
    obtain ⟨v, hv, hfv⟩ := groupBySwitch_complete hf
    refine ⟨v, ?_, hfv⟩
    rw [provision_int_unidirectional_trace]
    exact List.mem_cons_of_mem _ (List.mem_map.mpr ⟨(f.switch, v), hv, rfl⟩)

theorem c3_per_direction_batching_witness :
    (installSwitches (provision_int_unidirectional evcEx uniZ uniA ppAEx).1).Nodup ∧
    (∃ fls,
      Event.install (FlowRule.switch ⟨"S2", Role.hop, "e1"⟩) fls ∈
        (provision_int_unidirectional evcEx uniZ uniA ppAEx).1 ∧
      (⟨"S2", Role.hop, "e1"⟩ : FlowRule) ∈ fls) :=
  ⟨(c3_per_direction_batching evcEx uniZ uniA ppAEx).1,
    (c3_per_direction_batching evcEx uniZ uniA ppAEx).2.2
      ⟨"S2", Role.hop, "e1"⟩ (by decide)⟩

/-- C4: the claim that successful provisioning marks the circuit INT-enabled
and successful decommissioning clears the marker is false: both write-back
calls are commented out in the source, so success is reported with no
metadata update event in either trace. -/
theorem c4_counterexample :
    (provision_int ctlEx evcEx).2 = .ok "enabled" ∧
    (provision_int ctlEx evcEx).1.any Event.isSetTelemetry = false ∧
    (decommission_int evcIntEx).2 = "EVC ID e1 is no longer INT-enabled." ∧
    (decommission_int evcIntEx).1.any Event.isSetTelemetry = false := by
  refine ⟨rfl, by decide, by decide, by decide⟩

/-- C4 (amended): the INT-enabled metadata write-back is not implemented —
`set_telemetry_true_for_evc` and `set_telemetry_false_for_evc` are commented
out in src — so no provisioning or decommission pass emits a metadata
update: success is reported without marking or clearing INT-enabled. -/
theorem c4_no_metadata_writeback (ctl : PPTable) (evc : Evc) :
    (provision_int ctl evc).1.any Event.isSetTelemetry = false ∧
    (decommission_int evc).1.any Event.isSetTelemetry = false := by
  constructor
  · rcases ha : ppLookup ctl evc.uni_a.interface_id with _ | st
    · rw [provision_int_missing_a ctl evc ha]; rfl
    · cases st with
      | up =>
        rcases hz : ppLookup ctl evc.uni_z.interface_id with _ | st2
        · rw [provision_int_missing_z ctl evc ha hz]; rfl
        · cases st2 with
          | up =>
            rw [provision_int_ok ctl evc ha hz]
            simp [provision_int_unidirectional_trace, Event.isSetTelemetry,
              install_int_flows_no_setTelemetry]
          | down => rw [provision_int_down_z ctl evc ha hz]; rfl
      | down => rw [provision_int_down_a ctl evc ha]; rfl
  · simp [decommission_int, remove_int_flows, List.any_map, Function.comp,
      Event.isSetTelemetry]

/-- C7: proxy-port gating of enable provisioning: both endpoints' proxy
ports are resolved before any flow generation or install; a missing proxy
port fails the circuit with ProxyPortNotFound (mapped by the enable handler
to HTTP 404) with only resolution events in the trace; a configured but
DOWN proxy port fails it with ProxyPortStatusNotUP whatever the force flag. -/
theorem c7_proxy_port_gating (ctl : PPTable) (evc : Evc) :
    ((provision_int ctl evc).1.any (fun e => e.isGenerate || e.isInstall) = true →
      (provision_int ctl evc).1.take 2 =
        [Event.resolveProxyPort evc.uni_a.interface_id,
          Event.resolveProxyPort evc.uni_z.interface_id]) ∧
    (ppLookup ctl evc.uni_a.interface_id = none →
      (provision_int ctl evc).2 =
        .error (.proxyPortNotFound evc.uni_a.interface_id) ∧
      (provision_int ctl evc).1.all Event.isResolve = true) ∧
    (ppLookup ctl evc.uni_a.interface_id = some .up →
      ppLookup ctl evc.uni_z.interface_id = none →
      (provision_int ctl evc).2 =
        .error (.proxyPortNotFound evc.uni_z.interface_id) ∧
      (provision_int ctl evc).1.all Event.isResolve = true) ∧
    (∀ intf, mapEnableExc (.proxyPortNotFound intf) =
      .httpError 404 (IntError.proxyPortNotFound intf).toMessage) ∧
    (∀ force evc_id, evc.telemetry_enabled = false →
      ppLookup ctl evc.uni_a.interface_id = some .down →
      (enable_int_evc ctl force evc_id (some evc)).2 =
        .error (.proxyPortStatusNotUP evc.uni_a.interface_id) ∧
      (enable_int_evc ctl force evc_id (some evc)).1.all Event.isResolve = true) ∧
    (∀ force evc_id, evc.telemetry_enabled = false →
      ppLookup ctl evc.uni_a.interface_id = some .up →
      ppLookup ctl evc.uni_z.interface_id = some .down →
      (enable_int_evc ctl force evc_id (some evc)).2 =
        .error (.proxyPortStatusNotUP evc.uni_z.interface_id)) := by
  refine ⟨?_, ?_, ?_, ?_, ?_, ?_⟩
  · intro h
    rcases ha : ppLookup ctl evc.uni_a.interface_id with _ | st
    · rw [provision_int_missing_a ctl evc ha] at h
      simp [Event.isGenerate, Event.isInstall] at h
    · cases st with
      | up =>
        rcases hz : ppLookup ctl evc.uni_z.interface_id with _ | st2
        · rw [provision_int_missing_z ctl evc ha hz] at h
          simp [Event.isGenerate, Event.isInstall] at h
        · cases st2 with
          | up => rw [provision_int_ok ctl evc ha hz]; rfl
          | down =>
            rw [provision_int_down_z ctl evc ha hz] at h
            simp [Event.isGenerate, Event.isInstall] at h
      | down =>
        rw [provision_int_down_a ctl evc ha] at h
        simp [Event.isGenerate, Event.isInstall] at h
  · intro ha
    rw [provision_int_missing_a ctl evc ha]
    exact ⟨rfl, rfl⟩
  · intro ha hz
    rw [provision_int_missing_z ctl evc ha hz]
    exact ⟨rfl, rfl⟩
  · intro intf; rfl
  · intro force evc_id hte ha
    have hred : enable_int_evc ctl force evc_id (some evc) = provision_int ctl evc := by
      simp [enable_int_evc, hte]
    rw [hred, provision_int_down_a ctl evc ha]
    exact ⟨rfl, rfl⟩
  · intro force evc_id hte ha hz
    have hred : enable_int_evc ctl force evc_id (some evc) = provision_int ctl evc := by
      simp [enable_int_evc, hte]
    rw [hred, provision_int_down_z ctl evc ha hz]

theorem c7_proxy_port_gating_witness :
    (provision_int ctlMissingA evcEx).2 =
      .error (.proxyPortNotFound "intfA") ∧
    (provision_int ctlMissingA evcEx).1.all Event.isResolve = true ∧
    mapEnableExc (.proxyPortNotFound "intfA") =
      .httpError 404 (IntError.proxyPortNotFound "intfA").toMessage ∧
    (enable_int_evc ctlDownA true "e1" (some evcEx)).2 =
      .error (.proxyPortStatusNotUP "intfA") ∧
    (enable_int_evc ctlDownZ false "e1" (some evcEx)).2 =
      .error (.proxyPortStatusNotUP "intfZ") ∧
    (provision_int ctlEx evcEx).1.take 2 =
      [Event.resolveProxyPort "intfA", Event.resolveProxyPort "intfZ"] :=
  ⟨((c7_proxy_port_gating ctlMissingA evcEx).2.1 rfl).1,
    ((c7_proxy_port_gating ctlMissingA evcEx).2.1 rfl).2,
    (c7_proxy_port_gating ctlEx evcEx).2.2.2.1 "intfA",
    ((c7_proxy_port_gating ctlDownA evcEx).2.2.2.2.1 true "e1" rfl rfl).1,
    (c7_proxy_port_gating ctlDownZ evcEx).2.2.2.2.2 false "e1" rfl rfl rfl,
    (c7_proxy_port_gating ctlEx evcEx).1 (by decide)⟩

theorem enable_telemetry_empty_ids (inv : Inventory)
    (mgr : List (String × EvcRepr) → Bool → ManagerOutcome) (content : Json)
    (idsJson : Json) (force : Bool) (evcs : List (String × Evc))
    (hparse : parse_payload content = some (idsJson, force))
    (hids : asStringList idsJson = some [])
    (hall : inv.all_evcs = .ok evcs) :
    enable_telemetry inv mgr content =
      if ((evcs.filter (fun p => !has_int_enabled p.2)).map
          (fun p => (p.1, (some p.2 : EvcRepr)))).isEmpty = true then
        ⟨.response 200 (Json.obj []), some .all, none⟩
      else
        run_manager mapEnableExc 201 mgr
          ((evcs.filter (fun p => !has_int_enabled p.2)).map
            (fun p => (p.1, (some p.2 : EvcRepr)))) force .all := by
  rw [enable_telemetry_fetch inv mgr content idsJson force [] hparse hids,
    show runFetch inv (fetch_call_of []) = .ok evcs from hall]
  rfl

theorem disable_telemetry_empty_ids (inv : Inventory)
    (mgr : List (String × EvcRepr) → Bool → ManagerOutcome) (content : Json)
    (idsJson : Json) (force : Bool) (evcs : List (String × Evc))
    (hparse : parse_payload content = some (idsJson, force))
    (hids : asStringList idsJson = some [])
    (hall : inv.all_evcs = .ok evcs) :
    disable_telemetry inv mgr content =
      if ((evcs.filter (fun p => has_int_enabled p.2)).map
          (fun p => (p.1, (some p.2 : EvcRepr)))).isEmpty = true then
        ⟨.response 200 (Json.obj []), some .all, none⟩
      else
        run_manager mapDisableExc 200 mgr
          ((evcs.filter (fun p => has_int_enabled p.2)).map
            (fun p => (p.1, (some p.2 : EvcRepr)))) force .all := by
  rw [disable_telemetry_fetch inv mgr content idsJson force [] hparse hids,
    show runFetch inv (fetch_call_of []) = .ok evcs from hall]
  rfl

theorem enable_telemetry_requested (inv : Inventory)
    (mgr : List (String × EvcRepr) → Bool → ManagerOutcome) (content : Json)
    (idsJson : Json) (force : Bool) (ids : List String)
    (evcs : List (String × Evc))
    (hparse : parse_payload content = some (idsJson, force))
    (hids : asStringList idsJson = some ids)
    (hne : ids.isEmpty = false)
    (hfetch : runFetch inv (fetch_call_of ids) = .ok evcs) :
    enable_telemetry inv mgr content =
      run_manager mapEnableExc 201 mgr
        ((insertOrderedKeys ids).map (fun i => (i, lookupEvc evcs i))) force
        (fetch_call_of ids) := by
  rw [enable_telemetry_fetch inv mgr content idsJson force ids hparse hids, hfetch]
  dsimp only
  rw [if_neg (by simp [hne])]

theorem disable_telemetry_requested (inv : Inventory)
    (mgr : List (String × EvcRepr) → Bool → ManagerOutcome) (content : Json)
    (idsJson : Json) (force : Bool) (ids : List String)
    (evcs : List (String × Evc))
    (hparse : parse_payload content = some (idsJson, force))
    (hids : asStringList idsJson = some ids)
    (hne : ids.isEmpty = false)
    (hfetch : runFetch inv (fetch_call_of ids) = .ok evcs) :
    disable_telemetry inv mgr content =
      run_manager mapDisableExc 200 mgr
        ((insertOrderedKeys ids).map (fun i => (i, lookupEvc evcs i))) force
        (fetch_call_of ids) := by
  rw [disable_telemetry_fetch inv mgr content idsJson force ids hparse hids, hfetch]
  dsimp only
  rw [if_neg (by simp [hne])]

/-- C1: the claim that a bulk call always answers with a per-circuit result
map and that one circuit's classified failure never aborts the others is
false: a successful two-circuit enable answers the empty JSON object, which
covers neither named circuit, and a NotFound raised for one requested
circuit turns the entire request into a single HTTP 404. -/
theorem c1_counterexample :
    bodyCoversIds (enable_telemetry invEx mgrOk contentTwo).result
      ["e1", "e2"] = false ∧
    (enable_telemetry invEx (enable_int ctlEx) contentMissing).result =
      .httpError 404 (IntError.evcNotFound "missing").toMessage :=
  ⟨rfl, rfl⟩

/-- C1 (amended): each bulk handler produces one outcome for the whole
request: every successful response carries the empty JSON object — never a
per-circuit map — and when the INT manager raises a classified failure the
whole request ends as the single translated outcome of that exception. -/
theorem c1_single_outcome :
    (∀ inv mgr content st b,
      (enable_telemetry inv mgr content).result = .response st b →
      b = Json.obj []) ∧
    (∀ inv mgr content st b,
      (disable_telemetry inv mgr content).result = .response st b →
      b = Json.obj []) ∧
    (∀ inv content e evs f,
      (enable_telemetry inv (fun _ _ => .raises e) content).managerArg =
        some (evs, f) →
      (enable_telemetry inv (fun _ _ => .raises e) content).result =
        mapEnableExc e) ∧
    (∀ inv content e evs f,
      (disable_telemetry inv (fun _ _ => .raises e) content).managerArg =
        some (evs, f) →
      (disable_telemetry inv (fun _ _ => .raises e) content).result =
        mapDisableExc e) := by
  refine ⟨enable_telemetry_result_body, disable_telemetry_result_body, ?_, ?_⟩
  · intro inv content e evs f h
    rcases enable_telemetry_invoked inv (fun _ _ => .raises e) content with
      hn | ⟨evs2, f2, fc2, hrw⟩
    · rw [h] at hn; exact Option.noConfusion hn
    · rw [hrw]; rfl
  · intro inv content e evs f h
    rcases disable_telemetry_invoked inv (fun _ _ => .raises e) content with
      hn | ⟨evs2, f2, fc2, hrw⟩
    · rw [h] at hn; exact Option.noConfusion hn
    · rw [hrw]; rfl

theorem c1_single_outcome_witness :
    Json.obj [] = Json.obj [] ∧
    (enable_telemetry invEx
      (fun _ _ => ManagerOutcome.raises (.evcNotFound "e9")) contentTwo).result =
      mapEnableExc (.evcNotFound "e9") :=
  ⟨c1_single_outcome.1 invEx mgrOk contentTwo 201 (Json.obj []) rfl,
    c1_single_outcome.2.2.1 invEx contentTwo (.evcNotFound "e9")
      [("e1", some evcEx), ("e2", some evcEx2)] false rfl⟩

/-- C5: the claim that every not-found condition is reported as HTTP 404 on
both handlers is false: the disable handler does not catch FlowsNotFound,
so a circuit whose stored flows are absent makes the exception escape the
handler uncaught instead of producing a 404. -/
theorem c5_counterexample :
    (disable_telemetry invIntEx (disable_int []) contentOne).result =
      .uncaughtExc (.flowsNotFound "e1") ∧
    isHttp404 (disable_telemetry invIntEx (disable_int []) contentOne).result =
      false :=
  ⟨rfl, rfl⟩

/-- C5 (amended): the status mapping holds as each handler's except clauses
are written: the enable handler maps the three not-found classes to 404,
the two conflicts to 400, retry exhaustion to 503 carrying the last cause,
and unrecoverable to 500; the disable handler translates only EVCNotFound
(404), EVCHasNoINT (400), RetryError (503) and UnrecoverableError (500),
while FlowsNotFound, ProxyPortNotFound, ProxyPortStatusNotUP and EVCHasINT
escape it uncaught; a raised exception's translation is the whole request's
result. -/
theorem c5_exception_mapping :
    (∀ s, mapEnableExc (.evcNotFound s) =
      .httpError 404 (IntError.evcNotFound s).toMessage) ∧
    (∀ s, mapEnableExc (.flowsNotFound s) =
      .httpError 404 (IntError.flowsNotFound s).toMessage) ∧
    (∀ s, mapEnableExc (.proxyPortNotFound s) =
      .httpError 404 (IntError.proxyPortNotFound s).toMessage) ∧
    (∀ s, mapEnableExc (.evcHasINT s) =
      .httpError 400 (IntError.evcHasINT s).toMessage) ∧
    (∀ s, mapEnableExc (.proxyPortStatusNotUP s) =
      .httpError 400 (IntError.proxyPortStatusNotUP s).toMessage) ∧
    (∀ c, mapEnableExc (.retryError c) = .httpError 503 c) ∧
    (∀ m, mapEnableExc (.unrecoverableError m) =
      .httpError 500 (IntError.unrecoverableError m).toMessage) ∧
    (∀ s, mapDisableExc (.evcNotFound s) =
      .httpError 404 (IntError.evcNotFound s).toMessage) ∧
    (∀ s, mapDisableExc (.evcHasNoINT s) =
      .httpError 400 (IntError.evcHasNoINT s).toMessage) ∧
    (∀ c, mapDisableExc (.retryError c) = .httpError 503 c) ∧
    (∀ m, mapDisableExc (.unrecoverableError m) =
      .httpError 500 (IntError.unrecoverableError m).toMessage) ∧
    (∀ s, mapDisableExc (.flowsNotFound s) = .uncaughtExc (.flowsNotFound s)) ∧
    (∀ s, mapDisableExc (.proxyPortNotFound s) =
      .uncaughtExc (.proxyPortNotFound s)) ∧
    (∀ s, mapDisableExc (.proxyPortStatusNotUP s) =
      .uncaughtExc (.proxyPortStatusNotUP s)) ∧
    (∀ s, mapDisableExc (.evcHasINT s) = .uncaughtExc (.evcHasINT s)) ∧
    (∀ inv content e evs f,
      (enable_telemetry inv (fun _ _ => .raises e) content).managerArg =
        some (evs, f) →
      (enable_telemetry inv (fun _ _ => .raises e) content).result =
        mapEnableExc e) ∧
    (∀ inv content e evs f,
      (disable_telemetry inv (fun _ _ => .raises e) content).managerArg =
        some (evs, f) →
      (disable_telemetry inv (fun _ _ => .raises e) content).result =
        mapDisableExc e) := by
  refine ⟨fun _ => rfl, fun _ => rfl, fun _ => rfl, fun _ => rfl, fun _ => rfl,
    fun _ => rfl, fun _ => rfl, fun _ => rfl, fun _ => rfl, fun _ => rfl,
    fun _ => rfl, fun _ => rfl, fun _ => rfl, fun _ => rfl, fun _ => rfl,
    ?_, ?_⟩
  · intro inv content e evs f h
    rcases enable_telemetry_invoked inv (fun _ _ => .raises e) content with
      hn | ⟨evs2, f2, fc2, hrw⟩
    · rw [h] at hn; exact Option.noConfusion hn
    · rw [hrw]; rfl
  · intro inv content e evs f h
    rcases disable_telemetry_invoked inv (fun _ _ => .raises e) content with
      hn | ⟨evs2, f2, fc2, hrw⟩
    · rw [h] at hn; exact Option.noConfusion hn
    · rw [hrw]; rfl

theorem c5_exception_mapping_witness :
    (enable_telemetry invEx
      (fun _ _ => ManagerOutcome.raises (.retryError "conn failed"))
      contentTwo).result = mapEnableExc (.retryError "conn failed") ∧
    (disable_telemetry invIntEx
      (fun _ _ => ManagerOutcome.raises (.flowsNotFound "e1"))
      contentOne).result = mapDisableExc (.flowsNotFound "e1") :=
  ⟨c5_exception_mapping.2.2.2.2.2.2.2.2.2.2.2.2.2.2.2.1 invEx contentTwo
      (.retryError "conn failed") [("e1", some evcEx), ("e2", some evcEx2)]
      false rfl,
    c5_exception_mapping.2.2.2.2.2.2.2.2.2.2.2.2.2.2.2.2 invIntEx contentOne
      (.flowsNotFound "e1") [("e1", some evcIntEx)] false rfl⟩

/-- C6: with an empty `evc_ids` list, bulk enable hands the INT manager
exactly the circuits currently without INT and bulk disable exactly those
currently with INT; when the filtered set is empty the handler answers the
empty JSON object at once without invoking the INT manager. -/
theorem c6_empty_ids_filter (inv : Inventory)
    (mgr : List (String × EvcRepr) → Bool → ManagerOutcome) (content : Json)
    (idsJson : Json) (force : Bool) (evcs : List (String × Evc))
    (hparse : parse_payload content = some (idsJson, force))
    (hids : asStringList idsJson = some [])
    (hall : inv.all_evcs = .ok evcs) :
    (((evcs.filter (fun p => !has_int_enabled p.2)).map
        (fun p => (p.1, (some p.2 : EvcRepr)))).isEmpty = true →
      enable_telemetry inv mgr content =
        ⟨.response 200 (Json.obj []), some .all, none⟩) ∧
    (((evcs.filter (fun p => !has_int_enabled p.2)).map
        (fun p => (p.1, (some p.2 : EvcRepr)))).isEmpty = false →
      (enable_telemetry inv mgr content).managerArg =
        some ((evcs.filter (fun p => !has_int_enabled p.2)).map
          (fun p => (p.1, (some p.2 : EvcRepr))), force)) ∧
    (((evcs.filter (fun p => has_int_enabled p.2)).map
        (fun p => (p.1, (some p.2 : EvcRepr)))).isEmpty = true →
      disable_telemetry inv mgr content =
        ⟨.response 200 (Json.obj []), some .all, none⟩) ∧
    (((evcs.filter (fun p => has_int_enabled p.2)).map
        (fun p => (p.1, (some p.2 : EvcRepr)))).isEmpty = false →
      (disable_telemetry inv mgr content).managerArg =
        some ((evcs.filter (fun p => has_int_enabled p.2)).map
          (fun p => (p.1, (some p.2 : EvcRepr))), force)) := by
  refine ⟨?_, ?_, ?_, ?_⟩
  · intro hF
    rw [enable_telemetry_empty_ids inv mgr content idsJson force evcs hparse
      hids hall, if_pos hF]
  · intro hF
    rw [enable_telemetry_empty_ids inv mgr content idsJson force evcs hparse
      hids hall, if_neg (by simp [hF])]
    rfl
  · intro hF
    rw [disable_telemetry_empty_ids inv mgr content idsJson force evcs hparse
      hids hall, if_pos hF]
  · intro hF
    rw [disable_telemetry_empty_ids inv mgr content idsJson force evcs hparse
      hids hall, if_neg (by simp [hF])]
    rfl

theorem c6_empty_ids_filter_witness :
    enable_telemetry invIntEx mgrOk contentEmptyIds =
      ⟨.response 200 (Json.obj []), some .all, none⟩ ∧
    (disable_telemetry invIntEx mgrOk contentEmptyIds).managerArg =
      some ([("e1", (some evcIntEx : EvcRepr))], false) :=
  ⟨(c6_empty_ids_filter invIntEx mgrOk contentEmptyIds (.arr []) false
      [("e1", evcIntEx)] rfl rfl rfl).1 rfl,
    (c6_empty_ids_filter invIntEx mgrOk contentEmptyIds (.arr []) false
      [("e1", evcIntEx)] rfl rfl rfl).2.2.2 rfl⟩

/-- C8: with a non-empty `evc_ids` list both handlers hand the INT manager a
mapping keyed by exactly the requested ids, each key bound to the found
circuit or to the empty placeholder when absent upstream, and the modelled
per-circuit validation fails an empty placeholder with NotFound of that id. -/
theorem c8_requested_mapping (inv : Inventory)
    (mgr : List (String × EvcRepr) → Bool → ManagerOutcome) (content : Json)
    (idsJson : Json) (force : Bool) (ids : List String)
    (evcs : List (String × Evc))
    (hparse : parse_payload content = some (idsJson, force))
    (hids : asStringList idsJson = some ids)
    (hne : ids ≠ [])
    (hfetch : runFetch inv (fetch_call_of ids) = .ok evcs) :
    (enable_telemetry inv mgr content).managerArg =
      some ((insertOrderedKeys ids).map (fun i => (i, lookupEvc evcs i)),
        force) ∧
    (disable_telemetry inv mgr content).managerArg =
      some ((insertOrderedKeys ids).map (fun i => (i, lookupEvc evcs i)),
        force) ∧
    (∀ i, i ∈ insertOrderedKeys ids ↔ i ∈ ids) ∧
    (∀ ctl f i, (enable_int_evc ctl f i none).2 = .error (.evcNotFound i)) ∧
    (∀ stored f i,
      (disable_int_evc stored f i none).2 = .error (.evcNotFound i)) := by
  have hne2 : ids.isEmpty = false := by
    cases ids with
    | nil => exact absurd rfl hne
    | cons a as => rfl
  refine ⟨?_, ?_, fun i => insertOrderedKeys_mem ids i,
    fun ctl f i => rfl, fun stored f i => rfl⟩
  · rw [enable_telemetry_requested inv mgr content idsJson force ids evcs
      hparse hids hne2 hfetch]
    rfl
  · rw [disable_telemetry_requested inv mgr content idsJson force ids evcs
      hparse hids hne2 hfetch]
    rfl

theorem c8_requested_mapping_witness :
    (enable_telemetry invEx mgrOk contentMissing).managerArg =
      some ([("e1", (some evcEx : EvcRepr)), ("missing", (none : EvcRepr))],
        false) ∧
    (enable_int_evc ctlEx false "missing" none).2 =
      .error (.evcNotFound "missing") := by
  have h := c8_requested_mapping invEx mgrOk contentMissing
    (.arr [.str "e1", .str "missing"]) false ["e1", "missing"]
    [("e1", evcEx), ("e2", evcEx2)] rfl rfl (by decide) rfl
  exact ⟨h.1, h.2.2.2.1 ctlEx false "missing"⟩

/-- C9: the upstream inventory is fetched for a single circuit exactly when
one evc_id is named; any other request size — zero ids, or two or more,
even all unknown — fetches the whole inventory and filters afterwards. -/
theorem c9_single_fetch (inv : Inventory)
    (mgr : List (String × EvcRepr) → Bool → ManagerOutcome) (content : Json)
    (idsJson : Json) (force : Bool) (ids : List String)
    (hparse : parse_payload content = some (idsJson, force))
    (hids : asStringList idsJson = some ids) :
    (enable_telemetry inv mgr content).fetched = some (fetch_call_of ids) ∧
    (disable_telemetry inv mgr content).fetched = some (fetch_call_of ids) ∧
    (∀ i, fetch_call_of ids = .one i ↔ ids = [i]) ∧
    (ids.length ≠ 1 → fetch_call_of ids = .all) := by
  refine ⟨?_, ?_, ?_, ?_⟩
  · rw [enable_telemetry_fetch inv mgr content idsJson force ids hparse hids]
    repeat' first
      | split
      | dsimp only
    all_goals rfl
  · rw [disable_telemetry_fetch inv mgr content idsJson force ids hparse hids]
    repeat' first
      | split
      | dsimp only
    all_goals rfl
  · intro i
    rcases ids with _ | ⟨a, _ | ⟨b, t⟩⟩ <;> simp [fetch_call_of]
  · intro hlen
    rcases ids with _ | ⟨a, _ | ⟨b, t⟩⟩
    · rfl
    · exact absurd rfl hlen
    · rfl

theorem c9_single_fetch_witness :
    (enable_telemetry invEx mgrOk contentXY).fetched = some FetchCall.all ∧
    fetch_call_of ["e1"] = .one "e1" :=
  ⟨(c9_single_fetch invEx mgrOk contentXY (.arr [.str "x", .str "y"]) false
      ["x", "y"] rfl rfl).1,
    ((c9_single_fetch invEx mgrOk contentOne (.arr [.str "e1"]) false ["e1"]
      rfl rfl).2.2.1 "e1").mpr rfl⟩

/-- C10: a request body that is not a JSON object or lacks the `"evc_ids"`
key is rejected with HTTP 400 before any inventory fetch or manager
invocation; an absent `"force"` key defaults to false, and a present value
is coerced with Python truthiness. -/
theorem c10_payload_validation :
    (∀ inv mgr content, parse_payload content = none →
      enable_telemetry inv mgr content =
        ⟨.httpError 400 "Invalid payload", none, none⟩ ∧
      disable_telemetry inv mgr content =
        ⟨.httpError 400 "Invalid payload", none, none⟩) ∧
    (∀ kvs, jlookup kvs "evc_ids" = none → parse_payload (.obj kvs) = none) ∧
    (∀ content, (∀ kvs, content ≠ .obj kvs) → parse_payload content = none) ∧
    (∀ kvs idsJson, jlookup kvs "evc_ids" = some idsJson →
      jlookup kvs "force" = none →
      parse_payload (.obj kvs) = some (idsJson, false)) ∧
    (∀ kvs idsJson v, jlookup kvs "evc_ids" = some idsJson →
      jlookup kvs "force" = some v →
      parse_payload (.obj kvs) = some (idsJson, v.toBool)) := by
  refine ⟨?_, ?_, ?_, ?_, ?_⟩
  · intro inv mgr content h
    constructor
    · unfold enable_telemetry; rw [h]
    · unfold disable_telemetry; rw [h]
  · intro kvs h
    simp [parse_payload, h]
  · intro content h
    cases content <;> first | rfl | exact absurd rfl (h _)
  · intro kvs idsJson h1 h2
    simp [parse_payload, h1, h2]
    rfl
  · intro kvs idsJson v h1 h2
    simp [parse_payload, h1, h2]

theorem c10_payload_validation_witness :
    enable_telemetry invEx mgrOk (Json.arr []) =
      ⟨.httpError 400 "Invalid payload", none, none⟩ ∧
    parse_payload (Json.obj [("evc_ids", Json.arr []), ("force", Json.num 1)]) =
      some (Json.arr [], true) ∧
    parse_payload (Json.obj [("evc_ids", Json.arr [])]) =
      some (Json.arr [], false) :=
  ⟨(c10_payload_validation.1 invEx mgrOk (Json.arr []) rfl).1,
    c10_payload_validation.2.2.2.2
      [("evc_ids", Json.arr []), ("force", Json.num 1)] (Json.arr [])
      (Json.num 1) rfl rfl,
    c10_payload_validation.2.2.2.1 [("evc_ids", Json.arr [])] (Json.arr [])
      rfl rfl⟩

end Telemetry
